import Mathlib

/-!
Verification of the driver `config` command of falcoctl
(`src/cmd/driver/config/config.go`), a shallow embedding in Lean 4.

The embedding follows the Go source line by line.  External collaborators
that are not part of the repository snapshot under `src/`
(`pkg/driver/type`'s `Parse`, `internal/utils`' `ReplaceTextInFile`,
`internal/config`'s `StoreDriver`, the YAML library and the Kubernetes
client) are modelled from the specification; every such definition is
marked `Modelled from the spec:` in its doc string.  The Kubernetes
`ConfigMapList.Size()` method invoked by the Go loop is the
gogo-protobuf generated method returning the serialized byte size of the
list; it is embedded faithfully below because the loop bound depends on
it.
-/

/-- Modelled from the spec: the closed `DriverType` enumeration of
`pkg/driver/type` (not under `src/`), §3 of the spec:
"closed enumeration \x7bkernel-module, ebpf, modern-ebpf\x7d with a canonical
string form used both as the value written into configuration and as the
validation token". -/
inductive DriverType where
  | kernelModule
  | ebpf
  | modernEbpf
deriving DecidableEq

/-- Canonical string form of a `DriverType` (the Go `String()` method),
modelled from the spec's enumeration §3. -/
def DriverType.toString : DriverType → String
  | DriverType.kernelModule => "kernel-module"
  | DriverType.ebpf => "ebpf"
  | DriverType.modernEbpf => "modern-ebpf"

/-- Modelled from the spec: `drivertype.Parse` of `pkg/driver/type` (not
under `src/`).  Succeeds exactly on the canonical string forms of the
closed enumeration, §3 and §4.1 of the spec. -/
def drivertype.Parse (s : String) : Option DriverType :=
  if s = "kernel-module" then some DriverType.kernelModule
  else if s = "ebpf" then some DriverType.ebpf
  else if s = "modern-ebpf" then some DriverType.modernEbpf
  else none

/-- The validation failure produced by `checkFalcoRunsWithDrivers`:
`fmt.Errorf("engine.kind is not driver driven: %s", engineKind)` carries
the original input string. -/
structure ValidationError where
  engineKind : String
deriving DecidableEq

/-- The formatted message of the validation failure, as produced by
`fmt.Errorf` in `checkFalcoRunsWithDrivers` (config.go line 104). -/
def ValidationError.message (e : ValidationError) : String :=
  "engine.kind is not driver driven: " ++ e.engineKind

/-- Embeds `checkFalcoRunsWithDrivers` (config.go lines 98-107): succeeds
iff `drivertype.Parse` succeeds on the engine kind, otherwise returns the
error carrying the input string. -/
def checkFalcoRunsWithDrivers (engineKind : String) : Except ValidationError Unit :=
  match drivertype.Parse engineKind with
  | some _ => Except.ok ()
  | none => Except.error ⟨engineKind⟩

deriving instance DecidableEq for Except

/-! ## Local config patcher -/

/-- A local file as seen by the local patcher: its path, its permission
bits and its raw content (Go reads it as a byte slice; the configuration
is ASCII text, embedded as a list of characters). -/
structure FalcoFile where
  path : String
  mode : Nat
  content : List Char
deriving DecidableEq

/-- Tests whether `pat` is an initial segment of `s` (the prefix test Go's
`strings.Replace` performs at each position while scanning). -/
def occursAtHead : List Char → List Char → Bool
  | [], _ => true
  | _ :: _, [] => false
  | p :: ps, c :: cs => p = c && occursAtHead ps cs

/-- First-occurrence-only literal substitution, the behaviour of Go's
`strings.Replace(s, pat, new, 1)`: scan left to right, replace the first
occurrence of `pat` and keep everything else. -/
def replaceFirst (pat new : List Char) : List Char → List Char
  | [] => if occursAtHead pat [] then new else []
  | c :: rest =>
    if occursAtHead pat (c :: rest) then new ++ (c :: rest).drop pat.length
    else c :: replaceFirst pat new rest

/-- Modelled from the spec: `utils.ReplaceTextInFile` of `internal/utils`
(not under `src/`), spec §4.2 step 4: "perform an exact,
first-occurrence-only literal substitution ... leaving every other byte
unchanged, then write the full content back to the same path preserving
file mode". -/
def ReplaceTextInFile (f : FalcoFile) (searchFor newText : List Char) : FalcoFile :=
  { f with content := replaceFirst searchFor newText f.content }

/-- Outcome of a local patcher run that returned nil: either the file was
rewritten (`applied`) or the validator rejected the engine kind and the
run returned success without touching the file (`skipped`, config.go
lines 125-129, with the logged warning reason). -/
inductive LocalOutcome where
  | skipped (reason : ValidationError)
  | applied
deriving DecidableEq

/-- The literal prefix used for the substitution, `configKindKey` in the
source (config.go line 130). -/
def configKindKey : String := "kind: "

/-- Embeds `replaceDriverTypeInFalcoConfig` (config.go lines 109-132)
from the point where the file has been read and `yaml.Unmarshal` (an
external library) has extracted `cfg.Engine.Kind`; read and unmarshal
failures return early and are not claim-relevant.  `engineKind` is the
extracted value.  On validator failure the function returns nil without
writing (lines 125-129); on success it performs the
`utils.ReplaceTextInFile` substitution of `"kind: " + old` by
`"kind: " + new` with count 1 (lines 130-131). -/
def replaceDriverTypeInFalcoConfig (file : FalcoFile) (engineKind : String)
    (driverType : DriverType) : FalcoFile × LocalOutcome :=
  match checkFalcoRunsWithDrivers engineKind with
  | Except.error e => (file, LocalOutcome.skipped e)
  | Except.ok _ =>
    (ReplaceTextInFile file (configKindKey ++ engineKind).toList
      (configKindKey ++ driverType.toString).toList, LocalOutcome.applied)

/-! ## Kubernetes configmap model -/

/-- A Kubernetes ConfigMap as the cluster patcher sees it: its object
metadata (name and namespace; all other metadata fields are left at their
zero values in this model) and its string data map, embedded as an
association list. -/
structure ConfigMap where
  Name : String
  Namespc : String
  Data : List (String × String)
deriving DecidableEq

/-- A `v1.ConfigMapList` as returned by the `List` call: its items.  The
list metadata fields are left at their zero values in this model. -/
structure ConfigMapList where
  Items : List ConfigMap
deriving DecidableEq

/-- Go map indexing `m[k]`: the stored value, or the zero value `""` when
the key is absent (config.go line 178 reads
`configMap.Data[configMapEngineKindKey]` this way). -/
def mapGet (m : List (String × String)) (k : String) : String :=
  match m.lookup k with
  | some v => v
  | none => ""

/-- The `configMapEngineKindKey` constant (config.go line 42). -/
def configMapEngineKindKey : String := "engine.kind"

/-! ### The gogo-protobuf `Size()` method

`configMapList.Size()` (config.go lines 160 and 176) is the generated
protobuf method of `k8s.io/api/core/v1`: it returns the number of bytes
of the proto encoding of the whole list, not the number of items.  The
definitions below embed the generated `Size()` code for the fields this
model carries; every omitted field sits at its zero value and its
unconditional contribution is included. -/

/-- `sovGenerated x` of the generated protobuf code:
`(bits.Len64(x|1) + 6) / 7`, the byte length of the varint encoding of
`x`.  Written as the equivalent explicit case split over the uint64
range so that it is structurally computable. -/
def sovGenerated (x : Nat) : Nat :=
  if x < 2 ^ 7 then 1
  else if x < 2 ^ 14 then 2
  else if x < 2 ^ 21 then 3
  else if x < 2 ^ 28 then 4
  else if x < 2 ^ 35 then 5
  else if x < 2 ^ 42 then 6
  else if x < 2 ^ 49 then 7
  else if x < 2 ^ 56 then 8
  else if x < 2 ^ 63 then 9
  else 10

/-- Contribution of one proto string field: tag byte, varint length,
payload (`n += 1 + l + sovGenerated(uint64(l))` in the generated code). -/
def protoStringField (s : String) : Nat :=
  1 + s.utf8ByteSize + sovGenerated s.utf8ByteSize

/-- `metav1.Time.Size()` at the zero time: one varint field for seconds
and one for nanos. -/
def protoTimeSize : Nat := (1 + sovGenerated 0) + (1 + sovGenerated 0)

/-- `metav1.ObjectMeta.Size()` for an object carrying only a name and a
namespace: the generated code adds the six unconditional string fields
(Name, GenerateName, Namespace, SelfLink, UID, ResourceVersion), the
Generation varint and the embedded CreationTimestamp; the optional
fields (labels, annotations, owner references, ...) are at their zero
values in this model and contribute nothing. -/
def objectMetaSize (name namespc : String) : Nat :=
  protoStringField name
    + protoStringField ""
    + protoStringField namespc
    + protoStringField ""
    + protoStringField ""
    + protoStringField ""
    + (1 + sovGenerated 0)
    + (1 + protoTimeSize + sovGenerated protoTimeSize)

/-- Contribution of one entry of the proto map encoding of `Data`
(`mapEntrySize` in the generated `ConfigMap.Size()`). -/
def mapEntrySize (k v : String) : Nat :=
  1 + k.utf8ByteSize + sovGenerated k.utf8ByteSize
    + 1 + v.utf8ByteSize + sovGenerated v.utf8ByteSize

/-- Total contribution of the `Data` map in the generated
`ConfigMap.Size()`: each entry is framed by a tag byte and a varint
length. -/
def dataSize : List (String × String) → Nat
  | [] => 0
  | (k, v) :: rest =>
    (mapEntrySize k v + 1 + sovGenerated (mapEntrySize k v)) + dataSize rest

/-- The generated `v1.ConfigMap.Size()`: framed ObjectMeta plus the data
map (BinaryData and Immutable are at their zero values in this model). -/
def ConfigMap.protoSize (c : ConfigMap) : Nat :=
  (1 + objectMetaSize c.Name c.Namespc
      + sovGenerated (objectMetaSize c.Name c.Namespc))
    + dataSize c.Data

/-- `metav1.ListMeta.Size()` at zero values: the three unconditional
string fields SelfLink, ResourceVersion and Continue. -/
def listMetaSize : Nat :=
  protoStringField "" + protoStringField "" + protoStringField ""

/-- Summed framed sizes of the items in the generated
`v1.ConfigMapList.Size()`. -/
def itemsSize : List ConfigMap → Nat
  | [] => 0
  | c :: rest => (1 + c.protoSize + sovGenerated c.protoSize) + itemsSize rest

/-- The generated `v1.ConfigMapList.Size()` (the method the Go source
calls at config.go lines 160 and 176): the framed ListMeta plus the
framed items.  This is a byte count, not an item count. -/
def ConfigMapList.Size (l : ConfigMapList) : Nat :=
  (1 + listMetaSize + sovGenerated listMetaSize) + itemsSize l.Items

/-! ### The JSON patch payload -/

/-- Lowercase hex digit, as used by `encoding/json` for `\u00XX`
escapes. -/
def hexDigit (n : Nat) : Char :=
  if n < 10 then Char.ofNat (48 + n) else Char.ofNat (87 + n)

/-- Modelled from Go's `encoding/json` string escaping: quotes and
backslashes are backslash-escaped, newline, carriage return and tab use
their short forms, the HTML-sensitive characters use `\u00XX`, every
other control character below 0x20 uses `\u00XX`, and all remaining
characters are emitted verbatim. -/
def jsonEscapeChar (c : Char) : String :=
  if c = '"' then "\\\""
  else if c = '\\' then "\\\\"
  else if c = '\n' then "\\n"
  else if c = '\r' then "\\r"
  else if c = '\t' then "\\t"
  else if c = '<' ∨ c = '>' ∨ c = '&' ∨ c.toNat < 32 then
    String.mk ['\\', 'u', '0', '0', hexDigit (c.toNat / 16), hexDigit (c.toNat % 16)]
  else String.mk [c]

/-- A JSON string literal as `encoding/json` produces it. -/
def jsonQuote (s : String) : String :=
  "\"" ++ String.join (s.toList.map jsonEscapeChar) ++ "\""

/-- `json.Marshal` of one `patchDriverTypeValue` struct (config.go lines
164-168): the fields appear in declaration order under their tags `op`,
`path`, `value`. -/
def patchOpToJson (op path value : String) : String :=
  "\x7b\"op\":" ++ jsonQuote op ++ ",\"path\":" ++ jsonQuote path
    ++ ",\"value\":" ++ jsonQuote value ++ "\x7d"

/-- `plBytes` (config.go lines 169-174): `json.Marshal` of the
single-element payload slice
`[]patchDriverTypeValue\x7b\x7bOp: "replace", Path: "/data/" + configMapEngineKindKey, Value: driverType.String()\x7d\x7d`. -/
def patchPayload (driverType : DriverType) : String :=
  "[" ++ patchOpToJson "replace" ("/data/" ++ configMapEngineKindKey)
    driverType.toString ++ "]"

/-! ## Cluster config patcher -/

/-- One submitted `Patch` call (config.go lines 185-186): it is scoped to
the configmap's namespace and name and carries the marshalled JSON patch
body. -/
structure PatchCall where
  Namespc : String
  Name : String
  payload : String
deriving DecidableEq

/-- How a Go function invocation in this embedding terminates: a nil
return, a non-nil error return, or a runtime panic (which unwinds without
returning at all). -/
inductive GoRes where
  | ok
  | error (msg : String)
  | panicked (msg : String)
deriving DecidableEq

/-- The message of the Go runtime panic raised by an out-of-bounds slice
index. -/
def indexOutOfRange : String := "runtime error: index out of range"

/-- The error message returned when the emptiness guard fires (config.go
line 161). -/
def noConfigMapsMsg : String :=
  "no configmaps matching \"app.kubernetes.io/instance: falco\" label were found"

/-- The `for` loop of `replaceDriverTypeInK8SConfigMap` (config.go lines
176-189): `for i := 0; i < configMapList.Size(); i++`.  `rem` is the
remaining number of iterations (`size - i`), so the guard `i < size` is
exactly `rem > 0`.  Each iteration reads `Items[i]` — a runtime panic
when `i` is past the end of the slice — then reads the engine kind from
the data map, skips the item on validator failure (warn and `continue`,
lines 179-183), and otherwise submits the patch (lines 185-186),
returning the patch error immediately if the call fails.  `patch` is the
oracle giving each `Patch` call's result; `acc` accumulates the submitted
calls in order. -/
def runLoop (patch : ConfigMap → Except String Unit) (payload : String)
    (items : List ConfigMap) : Nat → Nat → List PatchCall → List PatchCall × GoRes
  | 0, _, acc => (acc, GoRes.ok)
  | rem + 1, i, acc =>
    match items[i]? with
    | none => (acc, GoRes.panicked indexOutOfRange)
    | some configMap =>
      match checkFalcoRunsWithDrivers (mapGet configMap.Data configMapEngineKindKey) with
      | Except.error _ => runLoop patch payload items rem (i + 1) acc
      | Except.ok _ =>
        match patch configMap with
        | Except.error e =>
          (acc ++ [⟨configMap.Namespc, configMap.Name, payload⟩], GoRes.error e)
        | Except.ok _ =>
          runLoop patch payload items rem (i + 1)
            (acc ++ [⟨configMap.Namespc, configMap.Name, payload⟩])

/-- Embeds `replaceDriverTypeInK8SConfigMap` (config.go lines 134-191)
from the point where the kubeconfig, the client and the `List` call have
succeeded (their error returns at lines 145-147, 150-152 and 157-159 are
direct propagation); `configMapList` is the successful listing result.
The function checks `configMapList.Size() == 0` (line 160), marshals the
payload once (lines 164-174) and runs the loop.  It returns the ordered
list of submitted patch calls together with the invocation's result. -/
def replaceDriverTypeInK8SConfigMap (patch : ConfigMap → Except String Unit)
    (configMapList : ConfigMapList) (driverType : DriverType) :
    List PatchCall × GoRes :=
  if configMapList.Size = 0 then ([], GoRes.error noConfigMapsMsg)
  else
    runLoop patch (patchPayload driverType) configMapList.Items
      configMapList.Size 0 []

/-- Reference form of the loop used by the lemmas: walk the item list in
order.  Because `Size()` always exceeds the item count (proved below),
the fuelled loop either aborts on a patch error or walks past the end of
the slice and panics; `walk` makes that structure explicit. -/
def walk (patch : ConfigMap → Except String Unit) (payload : String) :
    List ConfigMap → List PatchCall → List PatchCall × GoRes
  | [], acc => (acc, GoRes.panicked indexOutOfRange)
  | configMap :: rest, acc =>
    match checkFalcoRunsWithDrivers (mapGet configMap.Data configMapEngineKindKey) with
    | Except.error _ => walk patch payload rest acc
    | Except.ok _ =>
      match patch configMap with
      | Except.error e =>
        (acc ++ [⟨configMap.Namespc, configMap.Name, payload⟩], GoRes.error e)
      | Except.ok _ =>
        walk patch payload rest (acc ++ [⟨configMap.Namespc, configMap.Name, payload⟩])

/-- Whether the validator accepts a configmap's engine kind, i.e. whether
the loop body would submit a patch for it. -/
def isDriverEligible (c : ConfigMap) : Bool :=
  match checkFalcoRunsWithDrivers (mapGet c.Data configMapEngineKindKey) with
  | Except.ok _ => true
  | Except.error _ => false

/-- The patch calls the loop submits for a clean run over `items`: one
call per eligible item, in listing order. -/
def eligibleCalls (payload : String) (items : List ConfigMap) : List PatchCall :=
  (items.filter isDriverEligible).map fun c => ⟨c.Namespc, c.Name, payload⟩

/-! ## Dispatcher and RunDriverConfig -/

/-- The effects of one `RunDriverConfig` invocation: whether `commit` was
entered, every file written by the local patcher, every patch call
submitted by the cluster patcher, and whether `config.StoreDriver` was
invoked. -/
structure Effects where
  commitRan : Bool
  fileWrites : List FalcoFile
  patchCalls : List PatchCall
  storeRan : Bool
deriving DecidableEq

/-- Embeds `commit` (config.go lines 195-201): a non-empty namespace
routes to the cluster patcher, otherwise the local patcher runs.  The
local patcher's inputs are the file and its extracted engine kind, the
cluster patcher's are the patch oracle and the listing result.  Returns
the pair of write effects and the Go result (the local patcher returns
nil both when it applied the substitution and when it skipped). -/
def commit (namespc : String) (patch : ConfigMap → Except String Unit)
    (configMapList : ConfigMapList) (file : FalcoFile) (engineKind : String)
    (driverType : DriverType) : (List FalcoFile × List PatchCall) × GoRes :=
  if namespc ≠ "" then
    let r := replaceDriverTypeInK8SConfigMap patch configMapList driverType
    (([], r.1), r.2)
  else
    match replaceDriverTypeInFalcoConfig file engineKind driverType with
    | (f, LocalOutcome.applied) => (([f], []), GoRes.ok)
    | (_, LocalOutcome.skipped _) => (([], []), GoRes.ok)

/-- Embeds `RunDriverConfig` (config.go lines 82-96): when `Update` is
set, run `commit` and return its error on failure; otherwise (and on
commit success) call `config.StoreDriver` — an external collaborator
whose result is the `storeResult` input — and return its result.  The
`Effects` component records which actions were performed. -/
def RunDriverConfig (update : Bool) (namespc : String)
    (patch : ConfigMap → Except String Unit) (configMapList : ConfigMapList)
    (file : FalcoFile) (engineKind : String) (driverType : DriverType)
    (storeResult : Except String Unit) : Effects × GoRes :=
  if update then
    match commit namespc patch configMapList file engineKind driverType with
    | ((fw, pc), GoRes.ok) =>
      (⟨true, fw, pc, true⟩,
        match storeResult with
        | Except.ok _ => GoRes.ok
        | Except.error e => GoRes.error e)
    | ((fw, pc), GoRes.error e) => (⟨true, fw, pc, false⟩, GoRes.error e)
    | ((fw, pc), GoRes.panicked m) => (⟨true, fw, pc, false⟩, GoRes.panicked m)
  else
    (⟨false, [], [], true⟩,
      match storeResult with
      | Except.ok _ => GoRes.ok
      | Except.error e => GoRes.error e)

/-! ## Lemmas -/

theorem occursAtHead_iff (pat : List Char) :
    ∀ s : List Char, occursAtHead pat s = true ↔ ∃ t, s = pat ++ t := by
  induction pat with
  | nil => intro s; simp [occursAtHead]
  | cons p ps ih =>
    intro s
    cases s with
    | nil => simp [occursAtHead]
    | cons c cs =>
      simp only [occursAtHead, Bool.and_eq_true, decide_eq_true_eq, ih,
        List.cons_append, List.cons.injEq]
      constructor
      · rintro ⟨rfl, t, rfl⟩
        exact ⟨t, rfl, rfl⟩
      · rintro ⟨t, rfl, rfl⟩
        exact ⟨rfl, t, rfl⟩

theorem replaceFirst_of_not_occurs (pat new : List Char) :
    ∀ s : List Char, (¬ ∃ p q, s = p ++ pat ++ q) →
      replaceFirst pat new s = s := by
  intro s
  induction s with
  | nil =>
    intro h
    rw [replaceFirst, if_neg]
    intro hh
    obtain ⟨t, ht⟩ := (occursAtHead_iff pat []).1 hh
    exact h ⟨[], t, by simpa using ht⟩
  | cons c cs ih =>
    intro h
    rw [replaceFirst, if_neg, ih]
    · intro ⟨p, q, hpq⟩
      exact h ⟨c :: p, q, by simp [hpq]⟩
    · intro hh
      obtain ⟨t, ht⟩ := (occursAtHead_iff pat (c :: cs)).1 hh
      exact h ⟨[], t, by simpa using ht⟩

theorem replaceFirst_first_occurrence (pat new : List Char) (hne : pat ≠ []) :
    ∀ s : List Char, (∃ p q, s = p ++ pat ++ q) →
      ∃ pre suf, s = pre ++ pat ++ suf ∧
        (∀ p q, s = p ++ pat ++ q → pre.length ≤ p.length) ∧
        replaceFirst pat new s = pre ++ new ++ suf := by
  intro s
  induction s with
  | nil =>
    rintro ⟨p, q, hpq⟩
    exfalso
    rcases List.append_eq_nil.1 (List.append_eq_nil.1 hpq.symm).1 with ⟨-, h2⟩
    exact hne h2
  | cons c cs ih =>
    rintro ⟨p, q, hpq⟩
    by_cases hh : occursAtHead pat (c :: cs) = true
    · obtain ⟨t, ht⟩ := (occursAtHead_iff pat (c :: cs)).1 hh
      refine ⟨[], t, by simpa using ht, fun _ _ _ => Nat.zero_le _, ?_⟩
      rw [replaceFirst, if_pos hh, ht, List.drop_left, List.nil_append]
    · have hp : p ≠ [] := by
        rintro rfl
        exact hh ((occursAtHead_iff pat (c :: cs)).2 ⟨q, by simpa using hpq⟩)
      obtain ⟨p0, p', rfl⟩ := List.exists_cons_of_ne_nil hp
      rw [List.cons_append, List.cons_append] at hpq
      injection hpq with hhead hrest
      subst hhead
      obtain ⟨pre, suf, h1, hmin, h2⟩ := ih ⟨p', q, hrest⟩
      refine ⟨c :: pre, suf, by simp [h1], ?_, ?_⟩
      · rintro p2 q2 hp2
        have hp2ne : p2 ≠ [] := by
          rintro rfl
          exact hh ((occursAtHead_iff pat (c :: cs)).2 ⟨q2, by simpa using hp2⟩)
        obtain ⟨p20, p2', rfl⟩ := List.exists_cons_of_ne_nil hp2ne
        rw [List.cons_append, List.cons_append] at hp2
        injection hp2 with h20 h2rest
        have := hmin p2' q2 h2rest
        simpa using Nat.succ_le_succ this
      · rw [replaceFirst, if_neg hh, h2, List.cons_append, List.cons_append]

theorem length_le_itemsSize (items : List ConfigMap) :
    items.length ≤ itemsSize items := by
  induction items with
  | nil => simp [itemsSize]
  | cons c rest ih =>
    simp only [itemsSize, List.length_cons]
    omega

theorem length_lt_Size (l : ConfigMapList) : l.Items.length < l.Size := by
  have h := length_le_itemsSize l.Items
  unfold ConfigMapList.Size
  omega

theorem runLoop_eq_walk (patch : ConfigMap → Except String Unit)
    (payload : String) (items : List ConfigMap) :
    ∀ (rem i : Nat) (acc : List PatchCall), i ≤ items.length →
      items.length < i + rem →
      runLoop patch payload items rem i acc
        = walk patch payload (items.drop i) acc := by
  intro rem
  induction rem with
  | zero =>
    intro i acc h1 h2
    omega
  | succ rem ih =>
    intro i acc h1 h2
    rcases Nat.lt_or_ge i items.length with hlt | hge
    · rw [runLoop, List.getElem?_eq_getElem hlt,
        List.drop_eq_getElem_cons hlt, walk]
      cases hc : checkFalcoRunsWithDrivers
          (mapGet (items[i].Data) configMapEngineKindKey) with
      | error e =>
        simp only [hc]
        exact ih (i + 1) acc (by omega) (by omega)
      | ok u =>
        simp only [hc]
        cases hp : patch items[i] with
        | error e => simp only [hp]
        | ok u2 =>
          simp only [hp]
          exact ih (i + 1) _ (by omega) (by omega)
    · have hi : i = items.length := Nat.le_antisymm h1 hge
      subst hi
      rw [runLoop, List.getElem?_eq_none (Nat.le_refl _),
        List.drop_eq_nil_of_le (Nat.le_refl _), walk]

theorem k8s_eq_walk (patch : ConfigMap → Except String Unit)
    (lst : ConfigMapList) (dt : DriverType) :
    replaceDriverTypeInK8SConfigMap patch lst dt
      = walk patch (patchPayload dt) lst.Items [] := by
  unfold replaceDriverTypeInK8SConfigMap
  have hgt := length_lt_Size lst
  rw [if_neg (by omega)]
  have h := runLoop_eq_walk patch (patchPayload dt) lst.Items lst.Size 0 []
    (Nat.zero_le _) (by omega)
  simpa using h

theorem eligible_check {c : ConfigMap} (h : isDriverEligible c = true) :
    checkFalcoRunsWithDrivers (mapGet c.Data configMapEngineKindKey)
      = Except.ok () := by
  unfold isDriverEligible at h
  cases hck : checkFalcoRunsWithDrivers (mapGet c.Data configMapEngineKindKey) with
  | ok u => cases u; rfl
  | error e => rw [hck] at h; simp at h

theorem walk_cons_skip {c : ConfigMap} {e : ValidationError}
    (patch : ConfigMap → Except String Unit) (payload : String)
    (rest : List ConfigMap) (acc : List PatchCall)
    (hck : checkFalcoRunsWithDrivers (mapGet c.Data configMapEngineKindKey)
      = Except.error e) :
    walk patch payload (c :: rest) acc = walk patch payload rest acc := by
  rw [walk, hck]

theorem walk_cons_applied {c : ConfigMap}
    (patch : ConfigMap → Except String Unit) (payload : String)
    (rest : List ConfigMap) (acc : List PatchCall)
    (helig : isDriverEligible c = true) (hp : patch c = Except.ok ()) :
    walk patch payload (c :: rest) acc
      = walk patch payload rest (acc ++ [⟨c.Namespc, c.Name, payload⟩]) := by
  rw [walk, eligible_check helig, hp]

theorem walk_cons_failed {c : ConfigMap} {e : String}
    (patch : ConfigMap → Except String Unit) (payload : String)
    (rest : List ConfigMap) (acc : List PatchCall)
    (helig : isDriverEligible c = true) (hp : patch c = Except.error e) :
    walk patch payload (c :: rest) acc
      = (acc ++ [⟨c.Namespc, c.Name, payload⟩], GoRes.error e) := by
  rw [walk, eligible_check helig, hp]

theorem eligibleCalls_nil (payload : String) : eligibleCalls payload [] = [] := rfl

theorem eligibleCalls_cons (payload : String) (c : ConfigMap)
    (rest : List ConfigMap) :
    eligibleCalls payload (c :: rest)
      = if isDriverEligible c then
          ⟨c.Namespc, c.Name, payload⟩ :: eligibleCalls payload rest
        else eligibleCalls payload rest := by
  unfold eligibleCalls
  by_cases h : isDriverEligible c
  · rw [if_pos h, List.filter_cons_of_pos h, List.map_cons]
  · rw [if_neg h, List.filter_cons_of_neg (by simpa using h)]

theorem walk_append_clean (patch : ConfigMap → Except String Unit)
    (payload : String) :
    ∀ (pre rest : List ConfigMap) (acc : List PatchCall),
      (∀ c ∈ pre, isDriverEligible c = true → patch c = Except.ok ()) →
      walk patch payload (pre ++ rest) acc
        = walk patch payload rest (acc ++ eligibleCalls payload pre) := by
  intro pre
  induction pre with
  | nil => intro rest acc h; simp [eligibleCalls_nil]
  | cons c cs ih =>
    intro rest acc h
    rw [List.cons_append]
    by_cases helig : isDriverEligible c = true
    · have hp := h c (by simp) helig
      rw [walk_cons_applied patch payload (cs ++ rest) acc helig hp,
        ih rest _ (fun x hx hex => h x (List.mem_cons_of_mem _ hx) hex),
        eligibleCalls_cons, if_pos helig]
      simp
    · have hck : ∃ e, checkFalcoRunsWithDrivers
          (mapGet c.Data configMapEngineKindKey) = Except.error e := by
        unfold isDriverEligible at helig
        cases hck : checkFalcoRunsWithDrivers (mapGet c.Data configMapEngineKindKey) with
        | ok u => rw [hck] at helig; simp at helig
        | error e => exact ⟨e, rfl⟩
      obtain ⟨e, hck⟩ := hck
      rw [walk_cons_skip patch payload (cs ++ rest) acc hck,
        ih rest acc (fun x hx hex => h x (List.mem_cons_of_mem _ hx) hex),
        eligibleCalls_cons, if_neg helig]

theorem walk_payload (patch : ConfigMap → Except String Unit)
    (payload : String) :
    ∀ (items : List ConfigMap) (acc : List PatchCall) (c : PatchCall),
      c ∈ (walk patch payload items acc).1 → c ∈ acc ∨ c.payload = payload := by
  intro items
  induction items with
  | nil =>
    intro acc c hc
    left
    simpa [walk] using hc
  | cons cm rest ih =>
    intro acc c hc
    rw [walk] at hc
    cases hck : checkFalcoRunsWithDrivers (mapGet cm.Data configMapEngineKindKey) with
    | error e =>
      rw [hck] at hc
      exact ih acc c hc
    | ok u =>
      rw [hck] at hc
      cases hp : patch cm with
      | error e =>
        rw [hp] at hc
        simp only [List.mem_append, List.mem_singleton] at hc
        rcases hc with hc | hc
        · exact Or.inl hc
        · right; rw [hc]
      | ok u2 =>
        rw [hp] at hc
        rcases ih _ c hc with hmem | hpl
        · simp only [List.mem_append, List.mem_singleton] at hmem
          rcases hmem with hmem | hmem
          · exact Or.inl hmem
          · right; rw [hmem]
        · exact Or.inr hpl

/-! ## Claims -/

/-- C1: the claim states that a listing with zero matching configmaps
makes the cluster patcher fail with the NotFoundError and mutate nothing.
On the code, `configMapList.Size()` is the protobuf byte size — 8 for an
empty list, never 0 — so the emptiness guard at config.go line 160 never
fires; the loop then reads `Items[0]` of an empty slice and panics.  No
patch is submitted (the no-mutation half of the claim holds), but no
NotFoundError is returned. -/
theorem c1_empty_listing_runs_past_guard :
    ConfigMapList.Size ⟨[]⟩ = 8 ∧
    replaceDriverTypeInK8SConfigMap (fun _ => Except.ok ()) ⟨[]⟩ DriverType.ebpf
      = ([], GoRes.panicked indexOutOfRange) := by
  constructor
  · decide
  · decide

/-- C2: the claim states that with N matching resources of which exactly
one is ineligible, the patcher patches every eligible resource, skips the
ineligible one and returns overall success.  On the code, with two
configmaps — the first eligible, the second running gvisor — and every
patch call succeeding, the eligible one is patched and the gvisor one is
skipped, but the loop bound `configMapList.Size()` (a byte count larger
than the item count) drives `i` past the end of `Items` and the function
panics instead of returning nil. -/
theorem c2_skip_then_out_of_range :
    replaceDriverTypeInK8SConfigMap (fun _ => Except.ok ())
        ⟨[⟨"falco-config", "falco", [("engine.kind", "kernel-module")]⟩,
          ⟨"falco-gvisor", "falco", [("engine.kind", "gvisor")]⟩]⟩
        DriverType.ebpf
      = ([⟨"falco", "falco-config", patchPayload DriverType.ebpf⟩],
         GoRes.panicked indexOutOfRange) := by
  decide

/-- C5: the claim states that for an EngineKind outside the driver set
both patchers leave the target byte-identical and report success.  On the
code, the local patcher does exactly that for `gvisor`: it returns nil
with the skip reason and the file untouched.  The cluster patcher leaves
the gvisor configmap unpatched (the frame half of the claim holds) but
then panics on the `Size()` loop bound instead of returning success. -/
theorem c5_gvisor_skip_local_ok_cluster_panics :
    replaceDriverTypeInFalcoConfig
        ⟨"/etc/falco/falco.yaml", 420, "engine:\n  kind: gvisor\n".toList⟩
        "gvisor" DriverType.kernelModule
      = (⟨"/etc/falco/falco.yaml", 420, "engine:\n  kind: gvisor\n".toList⟩,
         LocalOutcome.skipped ⟨"gvisor"⟩) ∧
    replaceDriverTypeInK8SConfigMap (fun _ => Except.ok ())
        ⟨[⟨"falco-gv", "monitoring", [("engine.kind", "gvisor")]⟩]⟩
        DriverType.kernelModule
      = ([], GoRes.panicked indexOutOfRange) := by
  constructor
  · decide
  · decide

/-- C3: if the patch call fails for the resource at index k (the items
before it having been either skipped or patched successfully), the
cluster patcher returns that failure; the submitted calls are exactly one
per eligible resource before index k, in listing order, plus the single
failing attempt at index k — so no resource after index k receives a
patch attempt and the failing resource is attempted exactly once (no
retry). -/
theorem c3_patch_failure_aborts_batch
    (patch : ConfigMap → Except String Unit) (lst : ConfigMapList)
    (dt : DriverType) (pre post : List ConfigMap) (cmk : ConfigMap)
    (e : String)
    (hitems : lst.Items = pre ++ cmk :: post)
    (hpre : ∀ c ∈ pre, isDriverEligible c = true → patch c = Except.ok ())
    (helig : isDriverEligible cmk = true)
    (hfail : patch cmk = Except.error e) :
    replaceDriverTypeInK8SConfigMap patch lst dt
      = (eligibleCalls (patchPayload dt) pre
           ++ [⟨cmk.Namespc, cmk.Name, patchPayload dt⟩],
         GoRes.error e) := by
  rw [k8s_eq_walk, hitems,
    walk_append_clean patch (patchPayload dt) pre (cmk :: post) [] hpre,
    walk_cons_failed patch (patchPayload dt) post _ helig hfail,
    List.nil_append]

/-- Witness for C3: three configmaps, the second one's patch call is
rejected; the returned error is the rejection, the first (eligible)
configmap was patched, and the third receives no attempt. -/
theorem c3_patch_failure_aborts_batch_witness :
    replaceDriverTypeInK8SConfigMap
        (fun c => if c.Name = "falco-b" then Except.error "patch rejected"
          else Except.ok ())
        ⟨[⟨"falco-a", "ns1", [("engine.kind", "ebpf")]⟩,
          ⟨"falco-b", "ns1", [("engine.kind", "kernel-module")]⟩,
          ⟨"falco-c", "ns1", [("engine.kind", "ebpf")]⟩]⟩
        DriverType.modernEbpf
      = (eligibleCalls (patchPayload DriverType.modernEbpf)
             [⟨"falco-a", "ns1", [("engine.kind", "ebpf")]⟩]
           ++ [⟨"ns1", "falco-b", patchPayload DriverType.modernEbpf⟩],
         GoRes.error "patch rejected") :=
  c3_patch_failure_aborts_batch
    (fun c => if c.Name = "falco-b" then Except.error "patch rejected"
      else Except.ok ())
    ⟨[⟨"falco-a", "ns1", [("engine.kind", "ebpf")]⟩,
      ⟨"falco-b", "ns1", [("engine.kind", "kernel-module")]⟩,
      ⟨"falco-c", "ns1", [("engine.kind", "ebpf")]⟩]⟩
    DriverType.modernEbpf
    [⟨"falco-a", "ns1", [("engine.kind", "ebpf")]⟩]
    [⟨"falco-c", "ns1", [("engine.kind", "ebpf")]⟩]
    ⟨"falco-b", "ns1", [("engine.kind", "kernel-module")]⟩
    "patch rejected" rfl (by decide) (by decide) (by decide)

/-- C4: when the extracted EngineKind parses to a driver type and the
literal line `kind: <old>` occurs in the raw content, a successful local
patcher run rewrites exactly the first occurrence of that literal to
`kind: <new>`, leaves every byte outside the replaced region identical
(the content splits around the earliest occurrence and both sides are
preserved), and the written file keeps the original path and mode. -/
theorem c4_local_first_occurrence_substitution
    (file : FalcoFile) (engineKind : String) (dt : DriverType)
    (hdrv : (drivertype.Parse engineKind).isSome = true)
    (hocc : ∃ p q, file.content = p ++ (configKindKey ++ engineKind).toList ++ q) :
    ∃ pre suf,
      file.content = pre ++ (configKindKey ++ engineKind).toList ++ suf ∧
      (∀ p q, file.content = p ++ (configKindKey ++ engineKind).toList ++ q →
        pre.length ≤ p.length) ∧
      replaceDriverTypeInFalcoConfig file engineKind dt
        = (⟨file.path, file.mode,
            pre ++ (configKindKey ++ DriverType.toString dt).toList ++ suf⟩,
           LocalOutcome.applied) := by
  have hne : (configKindKey ++ engineKind).toList ≠ [] := by
    have h : (configKindKey ++ engineKind).toList
        = configKindKey.toList ++ engineKind.toList := rfl
    rw [h, show configKindKey.toList = ['k', 'i', 'n', 'd', ':', ' '] from rfl]
    simp
  obtain ⟨pre, suf, h1, hmin, h2⟩ :=
    replaceFirst_first_occurrence (configKindKey ++ engineKind).toList
      (configKindKey ++ DriverType.toString dt).toList hne file.content hocc
  refine ⟨pre, suf, h1, hmin, ?_⟩
  have hok : checkFalcoRunsWithDrivers engineKind = Except.ok () := by
    unfold checkFalcoRunsWithDrivers
    cases hp : drivertype.Parse engineKind with
    | some d => rfl
    | none => rw [hp] at hdrv; simp at hdrv
  unfold replaceDriverTypeInFalcoConfig
  rw [hok]
  unfold ReplaceTextInFile
  rw [h2]

/-- Witness for C4: the spec §8 scenario adapted to the canonical driver
strings: a file holding `engine:\n  kind: kernel-module\n` patched to
`ebpf` keeps path and mode and only the kind line changes. -/
theorem c4_local_first_occurrence_substitution_witness :
    ∃ pre suf,
      "engine:\n  kind: kernel-module\n".toList
        = pre ++ (configKindKey ++ "kernel-module").toList ++ suf ∧
      (∀ p q, "engine:\n  kind: kernel-module\n".toList
          = p ++ (configKindKey ++ "kernel-module").toList ++ q →
          pre.length ≤ p.length) ∧
      replaceDriverTypeInFalcoConfig
          ⟨"/etc/falco/falco.yaml", 420, "engine:\n  kind: kernel-module\n".toList⟩
          "kernel-module" DriverType.ebpf
        = (⟨"/etc/falco/falco.yaml", 420,
            pre ++ (configKindKey ++ DriverType.toString DriverType.ebpf).toList ++ suf⟩,
           LocalOutcome.applied) :=
  c4_local_first_occurrence_substitution
    ⟨"/etc/falco/falco.yaml", 420, "engine:\n  kind: kernel-module\n".toList⟩
    "kernel-module" DriverType.ebpf (by decide)
    ⟨"engine:\n  ".toList, "\n".toList, by decide⟩

/-- C6: the validator succeeds exactly when the input parses, parsing
succeeds exactly on the canonical string of a member of the closed
DriverType enumeration, and on failure the returned validation failure
carries the original input string.  The embedding is a pure function, as
the Go function is (it only calls `drivertype.Parse` and
`fmt.Errorf`). -/
theorem c6_validator_exact (s : String) :
    (checkFalcoRunsWithDrivers s = Except.ok ()
       ↔ (drivertype.Parse s).isSome = true) ∧
    ((drivertype.Parse s).isSome = true
       ↔ ∃ dt : DriverType, DriverType.toString dt = s) ∧
    (∀ e, checkFalcoRunsWithDrivers s = Except.error e → e.engineKind = s) := by
  refine ⟨?_, ⟨?_, ?_⟩, ?_⟩
  · unfold checkFalcoRunsWithDrivers
    cases hp : drivertype.Parse s with
    | some d => simp
    | none => simp
  · intro h
    unfold drivertype.Parse at h
    by_cases h1 : s = "kernel-module"
    · exact ⟨DriverType.kernelModule, h1.symm⟩
    · by_cases h2 : s = "ebpf"
      · exact ⟨DriverType.ebpf, h2.symm⟩
      · by_cases h3 : s = "modern-ebpf"
        · exact ⟨DriverType.modernEbpf, h3.symm⟩
        · rw [if_neg h1, if_neg h2, if_neg h3] at h
          simp at h
  · rintro ⟨dt, rfl⟩
    cases dt <;> rfl
  · intro e he
    unfold checkFalcoRunsWithDrivers at he
    cases hp : drivertype.Parse s with
    | some d => rw [hp] at he; simp at he
    | none =>
      rw [hp] at he
      injection he with he'
      rw [← he']

/-- Witness for C6 at the non-driver kind `gvisor`. -/
theorem c6_validator_exact_witness :
    (checkFalcoRunsWithDrivers "gvisor" = Except.ok ()
       ↔ (drivertype.Parse "gvisor").isSome = true) ∧
    ((drivertype.Parse "gvisor").isSome = true
       ↔ ∃ dt : DriverType, DriverType.toString dt = "gvisor") ∧
    (∀ e, checkFalcoRunsWithDrivers "gvisor" = Except.error e →
       e.engineKind = "gvisor") :=
  c6_validator_exact "gvisor"

/-- C7: in an invocation that commits (`Update` set), the store write is
attempted exactly when `commit` returns nil — including the case where
the commit succeeded because every target was skipped — and when `commit`
returns an error, `RunDriverConfig` returns that error and the store
write is not attempted (config.go lines 90-96). -/
theorem c7_store_write_gated_on_commit (namespc : String)
    (patch : ConfigMap → Except String Unit) (configMapList : ConfigMapList)
    (file : FalcoFile) (engineKind : String) (dt : DriverType)
    (storeResult : Except String Unit) :
    ((RunDriverConfig true namespc patch configMapList file engineKind dt
        storeResult).1.storeRan = true
      ↔ (commit namespc patch configMapList file engineKind dt).2 = GoRes.ok) ∧
    (∀ e, (commit namespc patch configMapList file engineKind dt).2
        = GoRes.error e →
      (RunDriverConfig true namespc patch configMapList file engineKind dt
        storeResult).1.storeRan = false
      ∧ (RunDriverConfig true namespc patch configMapList file engineKind dt
          storeResult).2 = GoRes.error e) := by
  unfold RunDriverConfig
  rcases hc : commit namespc patch configMapList file engineKind dt
    with ⟨⟨fw, pc⟩, res⟩
  cases res with
  | ok => simp
  | error e => simp
  | panicked m => simp

/-- Witness for C7: local path with a gvisor engine kind — the commit
succeeds with every target skipped, and the store write runs. -/
theorem c7_store_write_gated_on_commit_witness :
    ((RunDriverConfig true "" (fun _ => Except.ok ()) ⟨[]⟩
        ⟨"/etc/falco/falco.yaml", 420, "engine:\n  kind: gvisor\n".toList⟩
        "gvisor" DriverType.ebpf (Except.ok ())).1.storeRan = true
      ↔ (commit "" (fun _ => Except.ok ()) ⟨[]⟩
          ⟨"/etc/falco/falco.yaml", 420, "engine:\n  kind: gvisor\n".toList⟩
          "gvisor" DriverType.ebpf).2 = GoRes.ok) ∧
    (∀ e, (commit "" (fun _ => Except.ok ()) ⟨[]⟩
          ⟨"/etc/falco/falco.yaml", 420, "engine:\n  kind: gvisor\n".toList⟩
          "gvisor" DriverType.ebpf).2 = GoRes.error e →
      (RunDriverConfig true "" (fun _ => Except.ok ()) ⟨[]⟩
        ⟨"/etc/falco/falco.yaml", 420, "engine:\n  kind: gvisor\n".toList⟩
        "gvisor" DriverType.ebpf (Except.ok ())).1.storeRan = false
      ∧ (RunDriverConfig true "" (fun _ => Except.ok ()) ⟨[]⟩
          ⟨"/etc/falco/falco.yaml", 420, "engine:\n  kind: gvisor\n".toList⟩
          "gvisor" DriverType.ebpf (Except.ok ())).2 = GoRes.error e) :=
  c7_store_write_gated_on_commit "" (fun _ => Except.ok ()) ⟨[]⟩
    ⟨"/etc/falco/falco.yaml", 420, "engine:\n  kind: gvisor\n".toList⟩
    "gvisor" DriverType.ebpf (Except.ok ())

/-- C8: every patch call the cluster patcher submits, in any run, carries
as its body exactly the JSON array with the single operation
`\x7b"op":"replace","path":"/data/engine.kind","value":"<new-driver-type>"\x7d`
where the value is the canonical string of the new driver type (config.go
lines 164-174). -/
theorem c8_submitted_payload_single_replace_op
    (patch : ConfigMap → Except String Unit) (lst : ConfigMapList)
    (dt : DriverType) (c : PatchCall)
    (hc : c ∈ (replaceDriverTypeInK8SConfigMap patch lst dt).1) :
    c.payload
      = "[\x7b\"op\":\"replace\",\"path\":\"/data/" ++ configMapEngineKindKey
          ++ "\",\"value\":\"" ++ DriverType.toString dt ++ "\"\x7d]" := by
  rw [k8s_eq_walk] at hc
  rcases walk_payload patch (patchPayload dt) lst.Items [] c hc with h | h
  · simp at h
  · rw [h]
    cases dt <;> rfl

/-- Witness for C8: a run over a single eligible configmap submits one
call, whose body is the single-operation replace payload for
`kernel-module`. -/
theorem c8_submitted_payload_single_replace_op_witness :
    PatchCall.payload
        ⟨"default", "falco-cfg", patchPayload DriverType.kernelModule⟩
      = "[\x7b\"op\":\"replace\",\"path\":\"/data/" ++ configMapEngineKindKey
          ++ "\",\"value\":\"" ++ DriverType.toString DriverType.kernelModule
          ++ "\"\x7d]" :=
  c8_submitted_payload_single_replace_op (fun _ => Except.ok ())
    ⟨[⟨"falco-cfg", "default", [("engine.kind", "modern-ebpf")]⟩]⟩
    DriverType.kernelModule
    ⟨"default", "falco-cfg", patchPayload DriverType.kernelModule⟩
    (by decide)

/-- C9: a configmap whose data map lacks the `engine.kind` key reads as
the empty string (the Go map zero value), the validator rejects that
empty string with a failure carrying it (the logged warning reason), the
resource is ineligible, and the loop steps over it without submitting a
patch and without producing an error. -/
theorem c9_missing_engine_kind_key_skipped
    (cm : ConfigMap) (rest : List ConfigMap)
    (patch : ConfigMap → Except String Unit) (payload : String)
    (acc : List PatchCall)
    (h : cm.Data.lookup configMapEngineKindKey = none) :
    mapGet cm.Data configMapEngineKindKey = "" ∧
    checkFalcoRunsWithDrivers (mapGet cm.Data configMapEngineKindKey)
      = Except.error ⟨""⟩ ∧
    isDriverEligible cm = false ∧
    walk patch payload (cm :: rest) acc = walk patch payload rest acc := by
  have h1 : mapGet cm.Data configMapEngineKindKey = "" := by
    unfold mapGet
    rw [h]
  have h2 : checkFalcoRunsWithDrivers (mapGet cm.Data configMapEngineKindKey)
      = Except.error ⟨""⟩ := by
    rw [h1]
    decide
  refine ⟨h1, h2, ?_, walk_cons_skip patch payload rest acc h2⟩
  unfold isDriverEligible
  rw [h2]

/-- Witness for C9: a configmap with no `engine.kind` entry is stepped
over by the loop. -/
theorem c9_missing_engine_kind_key_skipped_witness :
    mapGet (⟨"falco-nokey", "default", [("foo", "bar")]⟩ : ConfigMap).Data
        configMapEngineKindKey = "" ∧
    checkFalcoRunsWithDrivers
        (mapGet (⟨"falco-nokey", "default", [("foo", "bar")]⟩ : ConfigMap).Data
          configMapEngineKindKey)
      = Except.error ⟨""⟩ ∧
    isDriverEligible ⟨"falco-nokey", "default", [("foo", "bar")]⟩ = false ∧
    walk (fun _ => Except.ok ()) "payload"
        (⟨"falco-nokey", "default", [("foo", "bar")]⟩ :: []) []
      = walk (fun _ => Except.ok ()) "payload" [] [] :=
  c9_missing_engine_kind_key_skipped
    ⟨"falco-nokey", "default", [("foo", "bar")]⟩ [] (fun _ => Except.ok ())
    "payload" [] (by decide)

/-- C10: with the update flag disabled, `RunDriverConfig` does not enter
`commit` at all — `commit` is the only site that reads or mutates the
local config file or any cluster resource, and the effect record shows no
file write and no patch call — yet `config.StoreDriver` still runs and
its result is returned (config.go lines 90-95). -/
theorem c10_no_update_skips_commit_still_stores (namespc : String)
    (patch : ConfigMap → Except String Unit) (configMapList : ConfigMapList)
    (file : FalcoFile) (engineKind : String) (dt : DriverType)
    (storeResult : Except String Unit) :
    RunDriverConfig false namespc patch configMapList file engineKind dt
        storeResult
      = (⟨false, [], [], true⟩,
         match storeResult with
         | Except.ok _ => GoRes.ok
         | Except.error e => GoRes.error e) := rfl
